import Mathlib

/-!
Verification of the state-reconciliation / schema-merge layer of the
terraform-provider-sequin repository.

The embedding models:
- the client-side wire structs (`internal/client/client.go`):
  `SinkConsumerDestination`, `SinkConsumerSource`, `SinkConsumerTable`,
  `StatusResponse`, `SinkConsumerResponse`, `SinkConsumerRequest`;
- the Terraform resource model (`internal/resources/sink_consumer_resource.go`):
  nullable attributes become `Option` values (Terraform null = `none`);
- the merge pipeline `mapResponseToModel` together with its destination-object
  merge, the request builders of `Create`/`Update`, the post-create restore
  logic, the `Read`/`Delete` not-found handling built on `IsNotFoundError`,
  and the backfill compound-identifier parsing of `BackfillResource.ImportState`.

Terraform's "unknown" value state is not modelled: all claims are about the
read/merge pipeline acting on persisted (hence known) state, where an
attribute is either null (`none`) or a concrete value (`some v`).
-/

/-- Wire struct `client.SinkConsumerDestination` (client.go lines 255-283).
Go zero values are the defaults: `""` for `string`, `nil` (here `none`) for
`*bool`.  The Go field `Type` is called `type` here because `Type` is a
reserved word in Lean. -/
structure SinkConsumerDestination where
  type : String := ""
  Hosts : String := ""
  Topic : String := ""
  TLS : Option Bool := none
  Username : String := ""
  Password : String := ""
  SASLMechanism : String := ""
  AWSRegion : String := ""
  AWSAccessKeyID : String := ""
  AWSSecretAccessKey : String := ""
  QueueURL : String := ""
  Region : String := ""
  AccessKeyID : String := ""
  SecretAccessKey : String := ""
  IsFIFO : Option Bool := none
  StreamARN : String := ""
  HTTPEndpoint : String := ""
  HTTPEndpointPath : String := ""
  Batch : Option Bool := none
  deriving DecidableEq

/-- Wire struct `client.SinkConsumerSource`: four slice fields; Go `nil`
slices and empty slices are conflated (both serialize to "absent" via
`omitempty` and both have `len == 0`), so plain lists suffice. -/
structure SinkConsumerSource where
  IncludeSchemas : List String := []
  ExcludeSchemas : List String := []
  IncludeTables : List String := []
  ExcludeTables : List String := []
  deriving DecidableEq

/-- Wire struct `client.SinkConsumerTable`. -/
structure SinkConsumerTable where
  Name : String := ""
  GroupColumnNames : List String := []
  deriving DecidableEq

/-- Wire struct `client.StatusResponse`. -/
structure StatusResponse where
  State : String := ""
  CreatedAt : String := ""
  UpdatedAt : String := ""
  LastError : String := ""
  deriving DecidableEq

/-- Wire struct `client.SinkConsumerResponse` (client.go lines 306-325). -/
structure SinkConsumerResponse where
  ID : String := ""
  Name : String := ""
  Status : String := ""
  Database : String := ""
  Source : Option SinkConsumerSource := none
  Tables : List SinkConsumerTable := []
  Actions : List String := []
  Destination : SinkConsumerDestination := {}
  Filter : String := ""
  Transform : String := ""
  Enrichment : String := ""
  Routing : String := ""
  MessageGrouping : Bool := false
  BatchSize : Int := 0
  MaxRetryCount : Option Int := none
  LoadSheddingPolicy : String := ""
  TimestampFormat : String := ""
  StatusInfo : StatusResponse := {}
  deriving DecidableEq

/-- The flattened destination object of the Terraform model
(the `destination` `types.Object` of `SinkConsumerResourceModel`): every
attribute is nullable, `none` = Terraform null ("Absent"). -/
@[ext] structure DestinationAttrs where
  type : Option String := none
  hosts : Option String := none
  topic : Option String := none
  tls : Option Bool := none
  username : Option String := none
  password : Option String := none
  sasl_mechanism : Option String := none
  aws_region : Option String := none
  aws_access_key_id : Option String := none
  aws_secret_access_key : Option String := none
  queue_url : Option String := none
  region : Option String := none
  access_key_id : Option String := none
  secret_access_key : Option String := none
  is_fifo : Option Bool := none
  stream_arn : Option String := none
  http_endpoint : Option String := none
  http_endpoint_path : Option String := none
  batch : Option Bool := none
  deriving DecidableEq

/-- The `source` nested object of the Terraform model. -/
structure SourceAttrs where
  include_schemas : Option (List String) := none
  exclude_schemas : Option (List String) := none
  include_tables : Option (List String) := none
  exclude_tables : Option (List String) := none
  deriving DecidableEq

/-- One element of the `tables` list of the Terraform model. -/
structure TableAttrs where
  name : String := ""
  group_column_names : Option (List String) := none
  deriving DecidableEq

/-- The `status_info` nested object of the Terraform model (all attributes
are computed strings; inside a non-null object they are plain strings). -/
structure StatusInfoAttrs where
  state : String := ""
  created_at : String := ""
  updated_at : String := ""
  last_error : String := ""
  deriving DecidableEq

/-- Terraform resource model `SinkConsumerResourceModel`
(sink_consumer_resource.go lines 37-56).  Nullable attributes are `Option`s;
`destination` is `Option` because a `types.Object` can be null (it never is
in a valid plan, where it is a required attribute). -/
@[ext] structure SinkConsumerResourceModel where
  ID : Option String := none
  Name : Option String := none
  Status : Option String := none
  Database : Option String := none
  Source : Option SourceAttrs := none
  Tables : List TableAttrs := []
  Actions : Option (List String) := none
  Destination : Option DestinationAttrs := none
  Filter : Option String := none
  Transform : Option String := none
  Enrichment : Option String := none
  Routing : Option String := none
  MessageGrouping : Option Bool := none
  BatchSize : Option Int := none
  MaxRetryCount : Option Int := none
  LoadSheddingPolicy : Option String := none
  TimestampFormat : Option String := none
  StatusInfo : Option StatusInfoAttrs := none
  deriving DecidableEq

/-! ### The destination merge of `mapResponseToModel`
(sink_consumer_resource.go lines 938-1056).

The Go code builds a fresh attribute map with every field null except `type`,
then runs a sequence of conditional assignments.  Each Go statement is one
small Lean function below; `mapDestination` composes them in the exact
statement order of the source.  A conditional assignment
`if cond { attrs[f] = v }` becomes `f := if cond then v else d.f`. -/

/-- Lines 939-959: fresh attribute map, all null except
`type = StringValue(response.Destination.Type)`. -/
def destInit (rd : SinkConsumerDestination) : DestinationAttrs :=
  { type := some rd.type }

/-- Lines 962-964: `if response.Destination.Hosts != ""`. -/
def destSetHosts (rd : SinkConsumerDestination) (d : DestinationAttrs) : DestinationAttrs :=
  { d with hosts := if rd.Hosts ≠ "" then some rd.Hosts else d.hosts }

/-- Lines 965-967: `if response.Destination.Topic != ""`. -/
def destSetTopic (rd : SinkConsumerDestination) (d : DestinationAttrs) : DestinationAttrs :=
  { d with topic := if rd.Topic ≠ "" then some rd.Topic else d.topic }

/-- Lines 968-970: `if response.Destination.TLS != nil`. -/
def destSetTLS (rd : SinkConsumerDestination) (d : DestinationAttrs) : DestinationAttrs :=
  { d with tls := match rd.TLS with | some b => some b | none => d.tls }

/-- Lines 971-973: `if response.Destination.Username != ""`. -/
def destSetUsername (rd : SinkConsumerDestination) (d : DestinationAttrs) : DestinationAttrs :=
  { d with username := if rd.Username ≠ "" then some rd.Username else d.username }

/-- Lines 978-980: preserve `password` from prior state when non-null. -/
def destPreservePassword (orig : DestinationAttrs) (d : DestinationAttrs) : DestinationAttrs :=
  { d with password := match orig.password with | some v => some v | none => d.password }

/-- Lines 981-983: preserve `aws_access_key_id` from prior state. -/
def destPreserveAWSAccessKeyID (orig : DestinationAttrs) (d : DestinationAttrs) : DestinationAttrs :=
  { d with aws_access_key_id :=
      match orig.aws_access_key_id with | some v => some v | none => d.aws_access_key_id }

/-- Lines 984-986: preserve `aws_secret_access_key` from prior state. -/
def destPreserveAWSSecretAccessKey (orig : DestinationAttrs) (d : DestinationAttrs) : DestinationAttrs :=
  { d with aws_secret_access_key :=
      match orig.aws_secret_access_key with | some v => some v | none => d.aws_secret_access_key }

/-- Lines 987-989: preserve `secret_access_key` from prior state. -/
def destPreserveSecretAccessKey (orig : DestinationAttrs) (d : DestinationAttrs) : DestinationAttrs :=
  { d with secret_access_key :=
      match orig.secret_access_key with | some v => some v | none => d.secret_access_key }

/-- Lines 990-992: preserve `access_key_id` from prior state. -/
def destPreserveAccessKeyID (orig : DestinationAttrs) (d : DestinationAttrs) : DestinationAttrs :=
  { d with access_key_id :=
      match orig.access_key_id with | some v => some v | none => d.access_key_id }

/-- Lines 993-998: preserve `topic` from prior state when the API returned an
empty topic (routing-override anti-drift rule). -/
def destPreserveTopic (rd : SinkConsumerDestination) (orig : DestinationAttrs)
    (d : DestinationAttrs) : DestinationAttrs :=
  { d with topic :=
      if rd.Topic = "" then
        match orig.topic with | some v => some v | none => d.topic
      else d.topic }

/-- Lines 975-999: the whole `if !model.Destination.IsNull()` block, in
source statement order. -/
def destPreserveFromPrior (rd : SinkConsumerDestination)
    (prior : Option DestinationAttrs) (d : DestinationAttrs) : DestinationAttrs :=
  match prior with
  | some orig =>
      destPreserveTopic rd orig
        (destPreserveAccessKeyID orig
          (destPreserveSecretAccessKey orig
            (destPreserveAWSSecretAccessKey orig
              (destPreserveAWSAccessKeyID orig
                (destPreservePassword orig d)))))
  | none => d

/-- Lines 1000-1002: `if response.Destination.SASLMechanism != ""`. -/
def destSetSASLMechanism (rd : SinkConsumerDestination) (d : DestinationAttrs) : DestinationAttrs :=
  { d with sasl_mechanism := if rd.SASLMechanism ≠ "" then some rd.SASLMechanism else d.sasl_mechanism }

/-- Lines 1003-1005: `if response.Destination.AWSRegion != ""`. -/
def destSetAWSRegion (rd : SinkConsumerDestination) (d : DestinationAttrs) : DestinationAttrs :=
  { d with aws_region := if rd.AWSRegion ≠ "" then some rd.AWSRegion else d.aws_region }

/-- Lines 1006-1008: `if response.Destination.QueueURL != ""`. -/
def destSetQueueURL (rd : SinkConsumerDestination) (d : DestinationAttrs) : DestinationAttrs :=
  { d with queue_url := if rd.QueueURL ≠ "" then some rd.QueueURL else d.queue_url }

/-- Lines 1009-1011: `if response.Destination.Region != ""`. -/
def destSetRegion (rd : SinkConsumerDestination) (d : DestinationAttrs) : DestinationAttrs :=
  { d with region := if rd.Region ≠ "" then some rd.Region else d.region }

/-- Lines 1012-1014: `if response.Destination.AccessKeyID != ""` — note this
runs after the preserve block and therefore overwrites a preserved value. -/
def destSetAccessKeyID (rd : SinkConsumerDestination) (d : DestinationAttrs) : DestinationAttrs :=
  { d with access_key_id := if rd.AccessKeyID ≠ "" then some rd.AccessKeyID else d.access_key_id }

/-- Lines 1015-1017: `if response.Destination.SecretAccessKey != ""`. -/
def destSetSecretAccessKey (rd : SinkConsumerDestination) (d : DestinationAttrs) : DestinationAttrs :=
  { d with secret_access_key := if rd.SecretAccessKey ≠ "" then some rd.SecretAccessKey else d.secret_access_key }

/-- Lines 1018-1020: `if response.Destination.IsFIFO != nil`. -/
def destSetIsFIFO (rd : SinkConsumerDestination) (d : DestinationAttrs) : DestinationAttrs :=
  { d with is_fifo := match rd.IsFIFO with | some b => some b | none => d.is_fifo }

/-- Lines 1021-1023: `if response.Destination.StreamARN != ""`. -/
def destSetStreamARN (rd : SinkConsumerDestination) (d : DestinationAttrs) : DestinationAttrs :=
  { d with stream_arn := if rd.StreamARN ≠ "" then some rd.StreamARN else d.stream_arn }

/-- Lines 1024-1026: `if response.Destination.HTTPEndpoint != ""`. -/
def destSetHTTPEndpoint (rd : SinkConsumerDestination) (d : DestinationAttrs) : DestinationAttrs :=
  { d with http_endpoint := if rd.HTTPEndpoint ≠ "" then some rd.HTTPEndpoint else d.http_endpoint }

/-- Lines 1027-1029: `if response.Destination.HTTPEndpointPath != ""`. -/
def destSetHTTPEndpointPath (rd : SinkConsumerDestination) (d : DestinationAttrs) : DestinationAttrs :=
  { d with http_endpoint_path := if rd.HTTPEndpointPath ≠ "" then some rd.HTTPEndpointPath else d.http_endpoint_path }

/-- Lines 1030-1032: `if response.Destination.Batch != nil`. -/
def destSetBatch (rd : SinkConsumerDestination) (d : DestinationAttrs) : DestinationAttrs :=
  { d with batch := match rd.Batch with | some b => some b | none => d.batch }

/-- The destination part of `mapResponseToModel`
(sink_consumer_resource.go lines 938-1056), composing the statements above in
source order.  `prior` is `model.Destination` before the call (the persisted
destination being merged against); the result is the merged destination
object stored back into the model. -/
def mapDestination (rd : SinkConsumerDestination)
    (prior : Option DestinationAttrs) : DestinationAttrs :=
  destSetBatch rd
    (destSetHTTPEndpointPath rd
      (destSetHTTPEndpoint rd
        (destSetStreamARN rd
          (destSetIsFIFO rd
            (destSetSecretAccessKey rd
              (destSetAccessKeyID rd
                (destSetRegion rd
                  (destSetQueueURL rd
                    (destSetAWSRegion rd
                      (destSetSASLMechanism rd
                        (destPreserveFromPrior rd prior
                          (destSetUsername rd
                            (destSetTLS rd
                              (destSetTopic rd
                                (destSetHosts rd (destInit rd))))))))))))))))

/-! ### Per-field characterization of the destination merge -/

/-- The merged `type` always comes from the snapshot. -/
lemma mapDestination_type (rd : SinkConsumerDestination) (p : Option DestinationAttrs) :
    (mapDestination rd p).type = some rd.type := by
  cases p with
  | none => rfl
  | some orig => rfl

/-- The merged `hosts` comes from the snapshot only; a stale prior value is
never carried over. -/
lemma mapDestination_hosts (rd : SinkConsumerDestination) (p : Option DestinationAttrs) :
    (mapDestination rd p).hosts = if rd.Hosts ≠ "" then some rd.Hosts else none := by
  cases p with
  | none => rfl
  | some orig => rfl

/-- The merged `topic`: snapshot value when non-empty, otherwise the prior
persisted topic (the routing-override anti-drift fallback). -/
lemma mapDestination_topic (rd : SinkConsumerDestination) (p : Option DestinationAttrs) :
    (mapDestination rd p).topic =
      if rd.Topic = "" then p.bind (fun o => o.topic) else some rd.Topic := by
  cases p with
  | none =>
      by_cases h : rd.Topic = "" <;>
        simp [mapDestination, destSetBatch, destSetHTTPEndpointPath, destSetHTTPEndpoint,
          destSetStreamARN, destSetIsFIFO, destSetSecretAccessKey, destSetAccessKeyID,
          destSetRegion, destSetQueueURL, destSetAWSRegion, destSetSASLMechanism,
          destPreserveFromPrior, destSetUsername, destSetTLS, destSetTopic, destSetHosts,
          destInit, h]
  | some orig =>
      by_cases h : rd.Topic = ""
      · cases horig : orig.topic <;>
          simp [mapDestination, destSetBatch, destSetHTTPEndpointPath, destSetHTTPEndpoint,
            destSetStreamARN, destSetIsFIFO, destSetSecretAccessKey, destSetAccessKeyID,
            destSetRegion, destSetQueueURL, destSetAWSRegion, destSetSASLMechanism,
            destPreserveFromPrior, destPreserveTopic, destPreserveAccessKeyID,
            destPreserveSecretAccessKey, destPreserveAWSSecretAccessKey,
            destPreserveAWSAccessKeyID, destPreservePassword,
            destSetUsername, destSetTLS, destSetTopic, destSetHosts, destInit, h, horig]
      · simp [mapDestination, destSetBatch, destSetHTTPEndpointPath, destSetHTTPEndpoint,
          destSetStreamARN, destSetIsFIFO, destSetSecretAccessKey, destSetAccessKeyID,
          destSetRegion, destSetQueueURL, destSetAWSRegion, destSetSASLMechanism,
          destPreserveFromPrior, destPreserveTopic, destPreserveAccessKeyID,
          destPreserveSecretAccessKey, destPreserveAWSSecretAccessKey,
          destPreserveAWSAccessKeyID, destPreservePassword,
          destSetUsername, destSetTLS, destSetTopic, destSetHosts, destInit, h]

/-- The merged `tls` always comes from the snapshot. -/
lemma mapDestination_tls (rd : SinkConsumerDestination) (p : Option DestinationAttrs) :
    (mapDestination rd p).tls = rd.TLS := by
  cases p <;> cases h : rd.TLS <;>
    simp [mapDestination, destSetBatch, destSetHTTPEndpointPath, destSetHTTPEndpoint,
      destSetStreamARN, destSetIsFIFO, destSetSecretAccessKey, destSetAccessKeyID,
      destSetRegion, destSetQueueURL, destSetAWSRegion, destSetSASLMechanism,
      destPreserveFromPrior, destPreserveTopic, destPreserveAccessKeyID,
      destPreserveSecretAccessKey, destPreserveAWSSecretAccessKey,
      destPreserveAWSAccessKeyID, destPreservePassword,
      destSetUsername, destSetTLS, destSetTopic, destSetHosts, destInit, h]

/-- The merged `username` comes from the snapshot only. -/
lemma mapDestination_username (rd : SinkConsumerDestination) (p : Option DestinationAttrs) :
    (mapDestination rd p).username = if rd.Username ≠ "" then some rd.Username else none := by
  cases p <;> rfl

/-- The merged `password` is always the prior persisted value: the snapshot's
`Password` field is never consulted by `mapResponseToModel`. -/
lemma mapDestination_password (rd : SinkConsumerDestination) (p : Option DestinationAttrs) :
    (mapDestination rd p).password = p.bind fun o => o.password := by
  cases p with
  | none => rfl
  | some orig =>
      cases h : orig.password <;>
        simp [mapDestination, destSetBatch, destSetHTTPEndpointPath, destSetHTTPEndpoint,
          destSetStreamARN, destSetIsFIFO, destSetSecretAccessKey, destSetAccessKeyID,
          destSetRegion, destSetQueueURL, destSetAWSRegion, destSetSASLMechanism,
          destPreserveFromPrior, destPreserveTopic, destPreserveAccessKeyID,
          destPreserveSecretAccessKey, destPreserveAWSSecretAccessKey,
          destPreserveAWSAccessKeyID, destPreservePassword,
          destSetUsername, destSetTLS, destSetTopic, destSetHosts, destInit, h]

/-- The merged `aws_access_key_id` is always the prior persisted value. -/
lemma mapDestination_aws_access_key_id (rd : SinkConsumerDestination)
    (p : Option DestinationAttrs) :
    (mapDestination rd p).aws_access_key_id = p.bind fun o => o.aws_access_key_id := by
  cases p with
  | none => rfl
  | some orig =>
      cases h : orig.aws_access_key_id <;>
        simp [mapDestination, destSetBatch, destSetHTTPEndpointPath, destSetHTTPEndpoint,
          destSetStreamARN, destSetIsFIFO, destSetSecretAccessKey, destSetAccessKeyID,
          destSetRegion, destSetQueueURL, destSetAWSRegion, destSetSASLMechanism,
          destPreserveFromPrior, destPreserveTopic, destPreserveAccessKeyID,
          destPreserveSecretAccessKey, destPreserveAWSSecretAccessKey,
          destPreserveAWSAccessKeyID, destPreservePassword,
          destSetUsername, destSetTLS, destSetTopic, destSetHosts, destInit, h]

/-- The merged `aws_secret_access_key` is always the prior persisted value. -/
lemma mapDestination_aws_secret_access_key (rd : SinkConsumerDestination)
    (p : Option DestinationAttrs) :
    (mapDestination rd p).aws_secret_access_key = p.bind fun o => o.aws_secret_access_key := by
  cases p with
  | none => rfl
  | some orig =>
      cases h : orig.aws_secret_access_key <;>
        simp [mapDestination, destSetBatch, destSetHTTPEndpointPath, destSetHTTPEndpoint,
          destSetStreamARN, destSetIsFIFO, destSetSecretAccessKey, destSetAccessKeyID,
          destSetRegion, destSetQueueURL, destSetAWSRegion, destSetSASLMechanism,
          destPreserveFromPrior, destPreserveTopic, destPreserveAccessKeyID,
          destPreserveSecretAccessKey, destPreserveAWSSecretAccessKey,
          destPreserveAWSAccessKeyID, destPreservePassword,
          destSetUsername, destSetTLS, destSetTopic, destSetHosts, destInit, h]

/-- The merged `sasl_mechanism` comes from the snapshot only. -/
lemma mapDestination_sasl_mechanism (rd : SinkConsumerDestination) (p : Option DestinationAttrs) :
    (mapDestination rd p).sasl_mechanism =
      if rd.SASLMechanism ≠ "" then some rd.SASLMechanism else none := by
  cases p <;> rfl

/-- The merged `aws_region` comes from the snapshot only. -/
lemma mapDestination_aws_region (rd : SinkConsumerDestination) (p : Option DestinationAttrs) :
    (mapDestination rd p).aws_region = if rd.AWSRegion ≠ "" then some rd.AWSRegion else none := by
  cases p <;> rfl

/-- The merged `queue_url` comes from the snapshot only. -/
lemma mapDestination_queue_url (rd : SinkConsumerDestination) (p : Option DestinationAttrs) :
    (mapDestination rd p).queue_url = if rd.QueueURL ≠ "" then some rd.QueueURL else none := by
  cases p <;> rfl

/-- The merged `region` comes from the snapshot only. -/
lemma mapDestination_region (rd : SinkConsumerDestination) (p : Option DestinationAttrs) :
    (mapDestination rd p).region = if rd.Region ≠ "" then some rd.Region else none := by
  cases p <;> rfl

/-- The merged `access_key_id`: the snapshot wins when it supplies a value
(line 1012 runs after the preserve block), otherwise the prior value. -/
lemma mapDestination_access_key_id (rd : SinkConsumerDestination) (p : Option DestinationAttrs) :
    (mapDestination rd p).access_key_id =
      if rd.AccessKeyID ≠ "" then some rd.AccessKeyID
      else p.bind fun o => o.access_key_id := by
  cases p with
  | none =>
      by_cases hk : rd.AccessKeyID = "" <;>
        simp [mapDestination, destSetBatch, destSetHTTPEndpointPath, destSetHTTPEndpoint,
          destSetStreamARN, destSetIsFIFO, destSetSecretAccessKey, destSetAccessKeyID,
          destSetRegion, destSetQueueURL, destSetAWSRegion, destSetSASLMechanism,
          destPreserveFromPrior, destPreserveTopic, destPreserveAccessKeyID,
          destPreserveSecretAccessKey, destPreserveAWSSecretAccessKey,
          destPreserveAWSAccessKeyID, destPreservePassword,
          destSetUsername, destSetTLS, destSetTopic, destSetHosts, destInit, hk]
  | some orig =>
      cases h : orig.access_key_id <;>
        simp [mapDestination, destSetBatch, destSetHTTPEndpointPath, destSetHTTPEndpoint,
          destSetStreamARN, destSetIsFIFO, destSetSecretAccessKey, destSetAccessKeyID,
          destSetRegion, destSetQueueURL, destSetAWSRegion, destSetSASLMechanism,
          destPreserveFromPrior, destPreserveTopic, destPreserveAccessKeyID,
          destPreserveSecretAccessKey, destPreserveAWSSecretAccessKey,
          destPreserveAWSAccessKeyID, destPreservePassword,
          destSetUsername, destSetTLS, destSetTopic, destSetHosts, destInit, h]

/-- The merged `secret_access_key`: the snapshot wins when it supplies a
value, otherwise the prior value. -/
lemma mapDestination_secret_access_key (rd : SinkConsumerDestination)
    (p : Option DestinationAttrs) :
    (mapDestination rd p).secret_access_key =
      if rd.SecretAccessKey ≠ "" then some rd.SecretAccessKey
      else p.bind fun o => o.secret_access_key := by
  cases p with
  | none =>
      by_cases hk : rd.SecretAccessKey = "" <;>
        simp [mapDestination, destSetBatch, destSetHTTPEndpointPath, destSetHTTPEndpoint,
          destSetStreamARN, destSetIsFIFO, destSetSecretAccessKey, destSetAccessKeyID,
          destSetRegion, destSetQueueURL, destSetAWSRegion, destSetSASLMechanism,
          destPreserveFromPrior, destPreserveTopic, destPreserveAccessKeyID,
          destPreserveSecretAccessKey, destPreserveAWSSecretAccessKey,
          destPreserveAWSAccessKeyID, destPreservePassword,
          destSetUsername, destSetTLS, destSetTopic, destSetHosts, destInit, hk]
  | some orig =>
      cases h : orig.secret_access_key <;>
        simp [mapDestination, destSetBatch, destSetHTTPEndpointPath, destSetHTTPEndpoint,
          destSetStreamARN, destSetIsFIFO, destSetSecretAccessKey, destSetAccessKeyID,
          destSetRegion, destSetQueueURL, destSetAWSRegion, destSetSASLMechanism,
          destPreserveFromPrior, destPreserveTopic, destPreserveAccessKeyID,
          destPreserveSecretAccessKey, destPreserveAWSSecretAccessKey,
          destPreserveAWSAccessKeyID, destPreservePassword,
          destSetUsername, destSetTLS, destSetTopic, destSetHosts, destInit, h]

/-- The merged `is_fifo` always comes from the snapshot. -/
lemma mapDestination_is_fifo (rd : SinkConsumerDestination) (p : Option DestinationAttrs) :
    (mapDestination rd p).is_fifo = rd.IsFIFO := by
  cases p <;> cases h : rd.IsFIFO <;>
    simp [mapDestination, destSetBatch, destSetHTTPEndpointPath, destSetHTTPEndpoint,
      destSetStreamARN, destSetIsFIFO, destSetSecretAccessKey, destSetAccessKeyID,
      destSetRegion, destSetQueueURL, destSetAWSRegion, destSetSASLMechanism,
      destPreserveFromPrior, destPreserveTopic, destPreserveAccessKeyID,
      destPreserveSecretAccessKey, destPreserveAWSSecretAccessKey,
      destPreserveAWSAccessKeyID, destPreservePassword,
      destSetUsername, destSetTLS, destSetTopic, destSetHosts, destInit, h]

/-- The merged `stream_arn` comes from the snapshot only. -/
lemma mapDestination_stream_arn (rd : SinkConsumerDestination) (p : Option DestinationAttrs) :
    (mapDestination rd p).stream_arn = if rd.StreamARN ≠ "" then some rd.StreamARN else none := by
  cases p <;> rfl

/-- The merged `http_endpoint` comes from the snapshot only. -/
lemma mapDestination_http_endpoint (rd : SinkConsumerDestination) (p : Option DestinationAttrs) :
    (mapDestination rd p).http_endpoint =
      if rd.HTTPEndpoint ≠ "" then some rd.HTTPEndpoint else none := by
  cases p <;> rfl

/-- The merged `http_endpoint_path` comes from the snapshot only. -/
lemma mapDestination_http_endpoint_path (rd : SinkConsumerDestination)
    (p : Option DestinationAttrs) :
    (mapDestination rd p).http_endpoint_path =
      if rd.HTTPEndpointPath ≠ "" then some rd.HTTPEndpointPath else none := by
  cases p <;> rfl

/-- The merged `batch` always comes from the snapshot. -/
lemma mapDestination_batch (rd : SinkConsumerDestination) (p : Option DestinationAttrs) :
    (mapDestination rd p).batch = rd.Batch := by
  cases p <;> cases h : rd.Batch <;>
    simp [mapDestination, destSetBatch, destSetHTTPEndpointPath, destSetHTTPEndpoint,
      destSetStreamARN, destSetIsFIFO, destSetSecretAccessKey, destSetAccessKeyID,
      destSetRegion, destSetQueueURL, destSetAWSRegion, destSetSASLMechanism,
      destPreserveFromPrior, destPreserveTopic, destPreserveAccessKeyID,
      destPreserveSecretAccessKey, destPreserveAWSSecretAccessKey,
      destPreserveAWSAccessKeyID, destPreservePassword,
      destSetUsername, destSetTLS, destSetTopic, destSetHosts, destInit, h]

/-- Merging the same snapshot destination twice is idempotent. -/
lemma mapDestination_idem (rd : SinkConsumerDestination) (p : Option DestinationAttrs) :
    mapDestination rd (some (mapDestination rd p)) = mapDestination rd p := by
  apply DestinationAttrs.ext <;>
    simp only [mapDestination_type, mapDestination_hosts, mapDestination_topic,
      mapDestination_tls, mapDestination_username, mapDestination_password,
      mapDestination_sasl_mechanism, mapDestination_aws_region,
      mapDestination_aws_access_key_id, mapDestination_aws_secret_access_key,
      mapDestination_queue_url, mapDestination_region, mapDestination_access_key_id,
      mapDestination_secret_access_key, mapDestination_is_fifo, mapDestination_stream_arn,
      mapDestination_http_endpoint, mapDestination_http_endpoint_path,
      mapDestination_batch, Option.some_bind] <;>
    first
    | rfl
    | (split_ifs with h <;>
        simp_all [mapDestination_topic, mapDestination_access_key_id,
          mapDestination_secret_access_key])

/-! ### `mapResponseToModel` (sink_consumer_resource.go lines 843-1123)

Every Go statement assigns one model field, reading only the response and the
model fields as they were before the call, so the whole function is one record
construction over the pre-state `m`. -/

/-- Source mapping (lines 849-896): an empty source (no filters) is treated
as null to avoid drift; inside a non-empty source each empty list is null. -/
def mapSource (src : Option SinkConsumerSource) : Option SourceAttrs :=
  match src with
  | none => none
  | some s =>
      if s.IncludeSchemas ≠ [] ∨ s.ExcludeSchemas ≠ [] ∨
          s.IncludeTables ≠ [] ∨ s.ExcludeTables ≠ [] then
        some { include_schemas := if s.IncludeSchemas ≠ [] then some s.IncludeSchemas else none
               exclude_schemas := if s.ExcludeSchemas ≠ [] then some s.ExcludeSchemas else none
               include_tables := if s.IncludeTables ≠ [] then some s.IncludeTables else none
               exclude_tables := if s.ExcludeTables ≠ [] then some s.ExcludeTables else none }
      else none

/-- Tables mapping (lines 898-927): empty `group_column_names` becomes null. -/
def mapTables (ts : List SinkConsumerTable) : List TableAttrs :=
  ts.map fun t =>
    { name := t.Name
      group_column_names := if t.GroupColumnNames ≠ [] then some t.GroupColumnNames else none }

/-- Status-info mapping (lines 1089-1122): only overwrite when the API
returned actual data; with no data and no prior value, set an all-empty
object; otherwise keep the prior value. -/
def mapStatusInfo (si : StatusResponse) (prior : Option StatusInfoAttrs) :
    Option StatusInfoAttrs :=
  if si.State ≠ "" ∨ si.CreatedAt ≠ "" ∨ si.UpdatedAt ≠ "" then
    some { state := si.State, created_at := si.CreatedAt,
           updated_at := si.UpdatedAt, last_error := si.LastError }
  else
    match prior with
    | none => some { state := "", created_at := "", updated_at := "", last_error := "" }
    | some x => some x

/-- The merge pipeline `mapResponseToModel`: folds an API response into the
model `m` (the prior persisted state in the Read path, the plan in the
Create/Update paths).

Field notes mirroring the source:
- `Filter`/`Routing` (lines 1059-1063, 1074-1078): a real value is taken from
  the response; the sentinel `"none"` or `""` keeps the prior model value
  (the Go `else if model.X.IsNull() ... model.X = types.StringNull()` branch
  is the identity on known values, so the else-branch is just `m.X`);
- `Transform`/`Enrichment` (lines 1064-1073): sentinel or empty becomes null
  unconditionally. -/
def mapResponseToModel (response : SinkConsumerResponse)
    (m : SinkConsumerResourceModel) : SinkConsumerResourceModel :=
  { ID := some response.ID
    Name := some response.Name
    Status := some response.Status
    Database := some response.Database
    Source := mapSource response.Source
    Tables := mapTables response.Tables
    Actions := if response.Actions ≠ [] then some response.Actions else none
    Destination := some (mapDestination response.Destination m.Destination)
    Filter :=
      if response.Filter ≠ "" ∧ response.Filter ≠ "none" then some response.Filter
      else m.Filter
    Transform :=
      if response.Transform ≠ "" ∧ response.Transform ≠ "none" then some response.Transform
      else none
    Enrichment :=
      if response.Enrichment ≠ "" ∧ response.Enrichment ≠ "none" then some response.Enrichment
      else none
    Routing :=
      if response.Routing ≠ "" ∧ response.Routing ≠ "none" then some response.Routing
      else m.Routing
    MessageGrouping := some response.MessageGrouping
    BatchSize := some response.BatchSize
    MaxRetryCount := response.MaxRetryCount
    LoadSheddingPolicy := some response.LoadSheddingPolicy
    TimestampFormat := some response.TimestampFormat
    StatusInfo := mapStatusInfo response.StatusInfo m.StatusInfo }

/-- With no snapshot data, `mapStatusInfo` always yields a non-null object,
so a second pass keeps it unchanged. -/
lemma mapStatusInfo_idem (si : StatusResponse) (prior : Option StatusInfoAttrs) :
    mapStatusInfo si (mapStatusInfo si prior) = mapStatusInfo si prior := by
  by_cases h : si.State ≠ "" ∨ si.CreatedAt ≠ "" ∨ si.UpdatedAt ≠ "" <;>
    cases prior <;> simp [mapStatusInfo, h]

/-! ### Client error handling (`internal/client/client.go`)

An HTTP exchange that reaches `handleResponse` is either a success (parsed
payload) or a status `>= 400` with a response body.  Client errors are plain
strings, as in Go (`error` values built with `fmt.Errorf`). -/

/-- Outcome of one HTTP exchange: parsed 2xx payload, or an error status with
its body (`resp.StatusCode >= 400`). -/
inductive HttpResult (α : Type) where
  | ok (payload : α)
  | errStatus (code : Nat) (body : String)
  deriving DecidableEq

/-- The error string produced by `handleResponse` (client.go line 89):
`"API error (status %d): %s"`. -/
def apiErrorMsg (code : Nat) (body : String) : String :=
  "API error (status " ++ toString code ++ "): " ++ body

/-- Go `strings.Contains(s, sub)`: `sub` occurs contiguously in `s`. -/
def strContains (s sub : String) : Bool :=
  decide (sub.data <:+: s.data)

/-- Function `client.IsNotFoundError` (client.go lines 533-539): nil errors are never
not-found; otherwise a substring test for `"not found"` or `"404"`. -/
def IsNotFoundError (err : Option String) : Bool :=
  match err with
  | none => false
  | some s => strContains s "not found" || strContains s "404"

/-- Function `client.GetSinkConsumer` (client.go lines 345-363): a 404 yields the
dedicated `"sink consumer not found: <id>"` error before `handleResponse`;
any other error status is wrapped as `"failed to get sink consumer: ..."`. -/
def getSinkConsumer (id : String) (r : HttpResult SinkConsumerResponse) :
    Except String SinkConsumerResponse :=
  match r with
  | .ok payload => .ok payload
  | .errStatus code body =>
      if code = 404 then .error ("sink consumer not found: " ++ id)
      else .error ("failed to get sink consumer: " ++ apiErrorMsg code body)

/-- Function `client.DeleteSinkConsumer` (client.go lines 382-400): a 404 is silent
success ("already deleted"); any other error status is surfaced. -/
def deleteSinkConsumer (id : String) (r : HttpResult Unit) : Except String Unit :=
  match r with
  | .ok _ => .ok ()
  | .errStatus code body =>
      if code = 404 then .ok ()
      else .error ("failed to delete sink consumer: " ++ apiErrorMsg code body)

/-- Function `client.CreateSinkConsumer` (client.go lines 330-343): no 404 special
case; an error status is wrapped as `"failed to create sink consumer: ..."`. -/
def createSinkConsumer (req : SinkConsumerRequest) (r : HttpResult SinkConsumerResponse) :
    Except String SinkConsumerResponse :=
  match r with
  | .ok payload => .ok payload
  | .errStatus code body =>
      .error ("failed to create sink consumer: " ++ apiErrorMsg code body)

/-- Function `client.UpdateSinkConsumer` (client.go lines 366-379): no 404 special
case; an error status is wrapped as `"failed to update sink consumer: ..."`. -/
def updateSinkConsumer (id : String) (req : SinkConsumerRequest)
    (r : HttpResult SinkConsumerResponse) : Except String SinkConsumerResponse :=
  match r with
  | .ok payload => .ok payload
  | .errStatus code body =>
      .error ("failed to update sink consumer: " ++ apiErrorMsg code body)

/-! ### `SinkConsumerResource.Read` (sink_consumer_resource.go lines 574-605) -/

/-- Outcome of a `Read`: the resource was removed from state, the state was
replaced by a merged model, or a diagnostic error was reported. -/
inductive ReadOutcome where
  | removed
  | merged (m : SinkConsumerResourceModel)
  | failed (msg : String)
  deriving DecidableEq

/-- Operation `Read`: fetch by the persisted ID; a not-found error removes the resource
from state with no diagnostic; other errors become diagnostics; a successful
response is merged against the current state via `mapResponseToModel`. -/
def sinkConsumerRead (http : HttpResult SinkConsumerResponse)
    (state : SinkConsumerResourceModel) : ReadOutcome :=
  let consumerID := state.ID.getD ""
  match getSinkConsumer consumerID http with
  | .error e =>
      if IsNotFoundError (some e) then .removed
      else .failed ("Could not read sink consumer ID " ++ consumerID ++ ": " ++ e)
  | .ok consumer => .merged (mapResponseToModel consumer state)

/-! ### Request building for `Create`/`Update`
(sink_consumer_resource.go lines 347-527 and 608-789) -/

/-- Wire struct `client.SinkConsumerRequest` (client.go lines 286-303).
Optional strings default to `""` (omitted via `omitempty`); optional
pointers are `Option`s. -/
structure SinkConsumerRequest where
  Name : String := ""
  Status : String := ""
  Database : String := ""
  Source : Option SinkConsumerSource := none
  Tables : List SinkConsumerTable := []
  Actions : List String := []
  Destination : SinkConsumerDestination := {}
  Filter : String := ""
  Transform : String := ""
  Enrichment : String := ""
  Routing : String := ""
  MessageGrouping : Option Bool := none
  BatchSize : Option Int := none
  MaxRetryCount : Option Int := none
  LoadSheddingPolicy : String := ""
  TimestampFormat : String := ""
  deriving DecidableEq

/-- Destination request building (Create lines 421-489, Update lines
682-751, identical): the `type` is copied unconditionally
(`destAttrs["type"].(types.String).ValueString()`), and every other
destination attribute is copied whenever it is non-null — the net effect of
each `if !x.IsNull() { req.X = ... }` statement on a zero-valued request.
No field is checked against the declared destination kind. -/
def buildDestinationRequest (d : DestinationAttrs) : SinkConsumerDestination :=
  { type := d.type.getD ""
    Hosts := d.hosts.getD ""
    Topic := d.topic.getD ""
    TLS := d.tls
    Username := d.username.getD ""
    Password := d.password.getD ""
    SASLMechanism := d.sasl_mechanism.getD ""
    AWSRegion := d.aws_region.getD ""
    AWSAccessKeyID := d.aws_access_key_id.getD ""
    AWSSecretAccessKey := d.aws_secret_access_key.getD ""
    QueueURL := d.queue_url.getD ""
    Region := d.region.getD ""
    AccessKeyID := d.access_key_id.getD ""
    SecretAccessKey := d.secret_access_key.getD ""
    IsFIFO := d.is_fifo
    StreamARN := d.stream_arn.getD ""
    HTTPEndpoint := d.http_endpoint.getD ""
    HTTPEndpointPath := d.http_endpoint_path.getD ""
    Batch := d.batch }

/-- Source request building in `Create` (lines 368-394).  The source has a
quirk faithfully kept here: `exclude_schemas` is parsed inside the
`include_schemas` branch, so it is copied only when `include_schemas` is
also non-null. -/
def buildCreateSource (src : Option SourceAttrs) : Option SinkConsumerSource :=
  match src with
  | none => none
  | some s =>
      let r : SinkConsumerSource := {}
      let r := match s.include_schemas with
        | some schemas =>
            let r := { r with IncludeSchemas := schemas }
            match s.exclude_schemas with
            | some ex => { r with ExcludeSchemas := ex }
            | none => r
        | none => r
      let r := match s.include_tables with
        | some tables => { r with IncludeTables := tables }
        | none => r
      let r := match s.exclude_tables with
        | some tables => { r with ExcludeTables := tables }
        | none => r
      some r

/-- Source request building in `Update` (lines 630-656): the four lists are
parsed independently (no nesting quirk). -/
def buildUpdateSource (src : Option SourceAttrs) : Option SinkConsumerSource :=
  match src with
  | none => none
  | some s =>
      some { IncludeSchemas := s.include_schemas.getD []
             ExcludeSchemas := s.exclude_schemas.getD []
             IncludeTables := s.include_tables.getD []
             ExcludeTables := s.exclude_tables.getD [] }

/-- Tables request building (Create lines 396-411, Update lines 658-673). -/
def buildRequestTables (ts : List TableAttrs) : List SinkConsumerTable :=
  ts.map fun t => { Name := t.name, GroupColumnNames := t.group_column_names.getD [] }

/-- All-null destination object, standing in for the attribute map of a null
`types.Object` (a valid plan never has one: `destination` is required). -/
def nullDestinationAttrs : DestinationAttrs := {}

/-- The `Create` request builder (lines 356-523). -/
def buildCreateRequest (m : SinkConsumerResourceModel) : SinkConsumerRequest :=
  { Name := m.Name.getD ""
    Database := m.Database.getD ""
    Status := m.Status.getD ""
    Source := buildCreateSource m.Source
    Tables := buildRequestTables m.Tables
    Actions := m.Actions.getD []
    Destination := buildDestinationRequest (m.Destination.getD nullDestinationAttrs)
    Filter := m.Filter.getD ""
    Transform := m.Transform.getD ""
    Enrichment := m.Enrichment.getD ""
    Routing := m.Routing.getD ""
    LoadSheddingPolicy := m.LoadSheddingPolicy.getD ""
    TimestampFormat := m.TimestampFormat.getD ""
    MessageGrouping := m.MessageGrouping
    BatchSize := m.BatchSize
    MaxRetryCount := m.MaxRetryCount }

/-- The `Update` request builder (lines 618-785), identical to Create's
except for the source nesting quirk. -/
def buildUpdateRequest (m : SinkConsumerResourceModel) : SinkConsumerRequest :=
  { Name := m.Name.getD ""
    Database := m.Database.getD ""
    Status := m.Status.getD ""
    Source := buildUpdateSource m.Source
    Tables := buildRequestTables m.Tables
    Actions := m.Actions.getD []
    Destination := buildDestinationRequest (m.Destination.getD nullDestinationAttrs)
    Filter := m.Filter.getD ""
    Transform := m.Transform.getD ""
    Enrichment := m.Enrichment.getD ""
    Routing := m.Routing.getD ""
    LoadSheddingPolicy := m.LoadSheddingPolicy.getD ""
    TimestampFormat := m.TimestampFormat.getD ""
    MessageGrouping := m.MessageGrouping
    BatchSize := m.BatchSize
    MaxRetryCount := m.MaxRetryCount }

/-- Lines 551-559 of `Create`: `if sourceWasNull { data.Source = ObjectNull }`. -/
def restoreSource (plan : SinkConsumerResourceModel) (d : SinkConsumerResourceModel) :
    SinkConsumerResourceModel :=
  { d with Source := if plan.Source.isNone then none else d.Source }

/-- Lines 560-562: `if transformWasNull { data.Transform = types.StringNull() }`. -/
def restoreTransform (plan : SinkConsumerResourceModel) (d : SinkConsumerResourceModel) :
    SinkConsumerResourceModel :=
  { d with Transform := if plan.Transform.isNone then none else d.Transform }

/-- Lines 563-565: `if enrichmentWasNull { data.Enrichment = types.StringNull() }`. -/
def restoreEnrichment (plan : SinkConsumerResourceModel) (d : SinkConsumerResourceModel) :
    SinkConsumerResourceModel :=
  { d with Enrichment := if plan.Enrichment.isNone then none else d.Enrichment }

/-- Lines 548-565 of `Create`: restore the destination object from the plan
wholesale (line 549) and reset `source`/`transform`/`enrichment` to null when
they were null in the plan, regardless of the mapped response values. -/
def postCreateRestore (plan : SinkConsumerResourceModel) (d : SinkConsumerResourceModel) :
    SinkConsumerResourceModel :=
  restoreEnrichment plan
    (restoreTransform plan
      (restoreSource plan { d with Destination := plan.Destination }))

/-- Operation `SinkConsumerResource.Create` (lines 347-571).  The request is built from
the plan before the call (no validation can fail); after a successful API
call the response is folded into the plan by `mapResponseToModel` and the
plan-restore steps of `postCreateRestore` are applied.  The only error source
is the API call itself. -/
def sinkConsumerCreate (plan : SinkConsumerResourceModel)
    (http : HttpResult SinkConsumerResponse) : Except String SinkConsumerResourceModel :=
  let createReq := buildCreateRequest plan
  match createSinkConsumer createReq http with
  | .error e => .error ("Could not create sink consumer: " ++ e)
  | .ok created => .ok (postCreateRestore plan (mapResponseToModel created plan))

/-- Operation `SinkConsumerResource.Update` (lines 608-809): build the request from the
plan, call the API keyed by the state's ID, and fold the response into the
plan (no restore step). -/
def sinkConsumerUpdate (plan state : SinkConsumerResourceModel)
    (http : HttpResult SinkConsumerResponse) : Except String SinkConsumerResourceModel :=
  let updateReq := buildUpdateRequest plan
  let consumerID := state.ID.getD ""
  match updateSinkConsumer consumerID updateReq http with
  | .error e => .error ("Could not update sink consumer ID " ++ consumerID ++ ": " ++ e)
  | .ok updated => .ok (mapResponseToModel updated plan)

/-- Discriminator in the style of `Except.isOk`, used to state that an operation did not
fail. -/
def exceptIsOk {ε α : Type} : Except ε α → Bool
  | .ok _ => true
  | .error _ => false

/-! ### Backfill compound-identifier parsing
(`BackfillResource.ImportState`, backfill resource lines 283-297)

`strings.SplitN(req.ID, "/", 2)` splits around the first separator only:
the result is `[s]` when the separator does not occur, and
`[before, after]` otherwise, where `after` is everything past the first
separator (and may itself contain separators). -/

/-- Go `strings.SplitN(s, sep, 2)` on character lists. -/
def splitN2 (sep : Char) : List Char → List (List Char)
  | [] => [[]]
  | c :: cs =>
      if c = sep then [[], cs]
      else
        match splitN2 sep cs with
        | [] => [[c]]
        | h :: t => (c :: h) :: t

/-- The diagnostic message of an invalid import ID (lines 288-292). -/
def importFormatError (raw : String) : String :=
  "Expected format: <sink_consumer>/<backfill_id>, got: " ++ raw

/-- Operation `BackfillResource.ImportState`: split the raw ID on the first `/`;
anything other than exactly two non-empty parts is a diagnostic error;
otherwise `(sink_consumer, backfill_id)` is written into state. -/
def backfillImportState (raw : String) : Except String (String × String) :=
  match (splitN2 '/' raw.data).map String.mk with
  | [p0, p1] =>
      if p0 = "" ∨ p1 = "" then .error (importFormatError raw)
      else .ok (p0, p1)
  | _ => .error (importFormatError raw)

/-- Without the separator, `splitN2` returns the whole input as one part. -/
lemma splitN2_no_sep (sep : Char) (l : List Char) (h : sep ∉ l) :
    splitN2 sep l = [l] := by
  induction l with
  | nil => rfl
  | cons c cs ih =>
      have hc : c ≠ sep := fun hcs => h (hcs ▸ List.mem_cons_self c cs)
      have hcs : sep ∉ cs := fun hm => h (List.mem_cons_of_mem c hm)
      simp [splitN2, hc, ih hcs]

/-- Splitting `p ++ sep :: rest` when `p` is separator-free recovers `p`
and `rest` exactly. -/
lemma splitN2_append_sep (sep : Char) (p rest : List Char) (h : sep ∉ p) :
    splitN2 sep (p ++ sep :: rest) = [p, rest] := by
  induction p with
  | nil => simp [splitN2]
  | cons c cs ih =>
      have hc : c ≠ sep := fun hcs => h (hcs ▸ List.mem_cons_self c cs)
      have hcs : sep ∉ cs := fun hm => h (List.mem_cons_of_mem c hm)
      simp [splitN2, hc, ih hcs]

/-! ### Substring helpers for the not-found classification -/

/-- Rebuilding a string from its character data is the identity. -/
lemma stringMk_data (s : String) : String.mk s.data = s := rfl

/-- A substring of `b` is a substring of `a ++ b`. -/
lemma infix_append_right (a b pat : String) (h : pat.data <:+: b.data) :
    pat.data <:+: (a ++ b).data := by
  rw [String.data_append]
  exact h.trans (List.suffix_append a.data b.data).isInfix

/-- A substring of `a` is a substring of `a ++ b`. -/
lemma infix_append_left (a b pat : String) (h : pat.data <:+: a.data) :
    pat.data <:+: (a ++ b).data := by
  rw [String.data_append]
  exact h.trans (List.prefix_append a.data b.data).isInfix

/-- Predicate `IsNotFoundError` holds of any message containing one of the two
substrings. -/
lemma isNotFoundError_of_infix (s : String)
    (h : "not found".data <:+: s.data ∨ "404".data <:+: s.data) :
    IsNotFoundError (some s) = true := by
  simp only [IsNotFoundError, strContains, Bool.or_eq_true, decide_eq_true_eq]
  exact h

/-- The client's 404 message `"sink consumer not found: <id>"` is classified
as not-found for every id. -/
lemma isNotFoundError_getMsg (id : String) :
    IsNotFoundError (some ("sink consumer not found: " ++ id)) = true := by
  refine isNotFoundError_of_infix _ (Or.inl ?_)
  exact infix_append_left "sink consumer not found: " id "not found" (by decide)

/-- A body containing one of the two substrings makes the whole wrapped get
error message classified as not-found. -/
lemma isNotFoundError_wrapped (code : Nat) (body : String)
    (h : "not found".data <:+: body.data ∨ "404".data <:+: body.data) :
    IsNotFoundError
      (some ("failed to get sink consumer: " ++ apiErrorMsg code body)) = true := by
  rcases h with h | h <;>
  · refine isNotFoundError_of_infix _ ?_
    first
    | exact Or.inl (infix_append_right _ _ _
        (by simpa [apiErrorMsg] using
          infix_append_right ("API error (status " ++ toString code ++ "): ") body _ h))
    | exact Or.inr (infix_append_right _ _ _
        (by simpa [apiErrorMsg] using
          infix_append_right ("API error (status " ++ toString code ++ "): ") body _ h))

/-! ## Claims -/

/-- Claim C5: the per-read merge is idempotent — re-running the merge
pipeline on an unchanged remote snapshot against the persisted state it
produced yields that same persisted state (no drift on a no-op read). -/
theorem C5_merge_idempotent (response : SinkConsumerResponse)
    (m : SinkConsumerResourceModel) :
    mapResponseToModel response (mapResponseToModel response m) =
      mapResponseToModel response m := by
  apply SinkConsumerResourceModel.ext <;>
    simp only [mapResponseToModel, mapDestination_idem, mapStatusInfo_idem] <;>
    first
    | rfl
    | (split_ifs <;> rfl)

/-- Webhook-kind snapshot used to refute claim C1: the API returned only the
webhook fields, every kafka/sqs/kinesis field is at its zero value. -/
def c1Snapshot : SinkConsumerDestination :=
  { type := "webhook", HTTPEndpoint := "https://example.com",
    HTTPEndpointPath := "/hook", Batch := some false }

/-- Prior persisted kafka-kind destination used to refute claim C1. -/
def c1Prior : DestinationAttrs :=
  { type := some "kafka", hosts := some "b:9092", topic := some "orders",
    tls := some true, username := some "u", sasl_mechanism := some "PLAIN",
    password := some "p1", aws_access_key_id := some "AK",
    aws_secret_access_key := some "SK" }

/-- Claim C1 is false as stated: merging a webhook-kind snapshot against a
prior kafka-kind persisted destination does NOT leave every kafka field
Absent — `topic` falls back to the prior value (routing-override rule, lines
993-998) and the credential fields are carried forward unconditionally
(lines 978-986), so `topic`, `password`, `aws_access_key_id` and
`aws_secret_access_key` all keep their prior kafka values. -/
theorem C1_counterexample :
    ¬ ((mapDestination c1Snapshot (some c1Prior)).hosts = none ∧
        (mapDestination c1Snapshot (some c1Prior)).topic = none ∧
        (mapDestination c1Snapshot (some c1Prior)).tls = none ∧
        (mapDestination c1Snapshot (some c1Prior)).sasl_mechanism = none ∧
        (mapDestination c1Snapshot (some c1Prior)).password = none ∧
        (mapDestination c1Snapshot (some c1Prior)).aws_access_key_id = none ∧
        (mapDestination c1Snapshot (some c1Prior)).aws_secret_access_key = none) := by
  decide

/-- Claim C1 as amended: for a snapshot whose kafka wire fields are all
empty (as a webhook-kind snapshot's are), the merged destination has
`hosts`, `tls`, `username`, `sasl_mechanism` and `aws_region` Absent
regardless of the prior destination, while `topic` and the write-only
credential fields `password`, `aws_access_key_id`, `aws_secret_access_key`
are carried forward verbatim from the prior persisted destination (Absent
only when the prior value was Absent); the merged `type` always reflects the
snapshot's kind. -/
theorem C1_amended_kind_isolation (rd : SinkConsumerDestination)
    (p : DestinationAttrs)
    (hHosts : rd.Hosts = "") (hTopic : rd.Topic = "") (hTLS : rd.TLS = none)
    (hUser : rd.Username = "") (hSASL : rd.SASLMechanism = "")
    (hRegion : rd.AWSRegion = "") :
    (mapDestination rd (some p)).type = some rd.type ∧
    (mapDestination rd (some p)).hosts = none ∧
    (mapDestination rd (some p)).tls = none ∧
    (mapDestination rd (some p)).username = none ∧
    (mapDestination rd (some p)).sasl_mechanism = none ∧
    (mapDestination rd (some p)).aws_region = none ∧
    (mapDestination rd (some p)).topic = p.topic ∧
    (mapDestination rd (some p)).password = p.password ∧
    (mapDestination rd (some p)).aws_access_key_id = p.aws_access_key_id ∧
    (mapDestination rd (some p)).aws_secret_access_key = p.aws_secret_access_key := by
  refine ⟨mapDestination_type rd (some p), ?_, ?_, ?_, ?_, ?_, ?_, ?_, ?_, ?_⟩ <;>
    simp [mapDestination_hosts, mapDestination_tls, mapDestination_username,
      mapDestination_sasl_mechanism, mapDestination_aws_region, mapDestination_topic,
      mapDestination_password, mapDestination_aws_access_key_id,
      mapDestination_aws_secret_access_key, hHosts, hTopic, hTLS, hUser, hSASL, hRegion]

/-- Witness for C1: the amended theorem applied to the concrete webhook
snapshot and kafka prior of the counterexample. -/
theorem C1_witness :
    (mapDestination c1Snapshot (some c1Prior)).type = some c1Snapshot.type ∧
    (mapDestination c1Snapshot (some c1Prior)).hosts = none ∧
    (mapDestination c1Snapshot (some c1Prior)).tls = none ∧
    (mapDestination c1Snapshot (some c1Prior)).username = none ∧
    (mapDestination c1Snapshot (some c1Prior)).sasl_mechanism = none ∧
    (mapDestination c1Snapshot (some c1Prior)).aws_region = none ∧
    (mapDestination c1Snapshot (some c1Prior)).topic = c1Prior.topic ∧
    (mapDestination c1Snapshot (some c1Prior)).password = c1Prior.password ∧
    (mapDestination c1Snapshot (some c1Prior)).aws_access_key_id = c1Prior.aws_access_key_id ∧
    (mapDestination c1Snapshot (some c1Prior)).aws_secret_access_key =
      c1Prior.aws_secret_access_key :=
  C1_amended_kind_isolation c1Snapshot c1Prior rfl rfl rfl rfl rfl rfl

/-- Kafka snapshot that echoes the password once, used to refute claim C2. -/
def c2Snapshot : SinkConsumerDestination :=
  { type := "kafka", Hosts := "b:9092", Topic := "t", Password := "echoed-once" }

/-- Prior persisted destination with an Absent password, used to refute
claim C2. -/
def c2Prior : DestinationAttrs :=
  { type := some "kafka", hosts := some "b:9092", topic := some "t" }

/-- Claim C2 is false as stated for `password` (and likewise for the two
`aws_*` credentials): `mapResponseToModel` never reads the snapshot's
`Password` field, so even when the snapshot supplies a non-absent value
(`"echoed-once"` here) the merge does not use it — with an Absent prior the
merged password stays Absent instead of taking the snapshot's value. -/
theorem C2_counterexample :
    c2Snapshot.Password = "echoed-once" ∧
    (mapDestination c2Snapshot (some c2Prior)).password = none := by
  constructor
  · rfl
  · decide

/-- Claim C2 as amended: for `access_key_id` and `secret_access_key` the
merge uses the snapshot's value whenever the snapshot supplies a non-absent
one and otherwise carries the prior persisted value forward verbatim
(including when it is Absent); for `password`, `aws_access_key_id` and
`aws_secret_access_key` the snapshot is never consulted — the prior
persisted value is always carried forward verbatim (including Absent).  No
value is ever fabricated. -/
theorem C2_amended_write_only_merge (rd : SinkConsumerDestination)
    (p : DestinationAttrs) :
    (mapDestination rd (some p)).password = p.password ∧
    (mapDestination rd (some p)).aws_access_key_id = p.aws_access_key_id ∧
    (mapDestination rd (some p)).aws_secret_access_key = p.aws_secret_access_key ∧
    (mapDestination rd (some p)).access_key_id =
      (if rd.AccessKeyID ≠ "" then some rd.AccessKeyID else p.access_key_id) ∧
    (mapDestination rd (some p)).secret_access_key =
      (if rd.SecretAccessKey ≠ "" then some rd.SecretAccessKey else p.secret_access_key) := by
  refine ⟨?_, ?_, ?_, ?_, ?_⟩ <;>
    simp [mapDestination_password, mapDestination_aws_access_key_id,
      mapDestination_aws_secret_access_key, mapDestination_access_key_id,
      mapDestination_secret_access_key]

/-- Remote snapshot returning the sentinel `"none"` for `filter`, used for
claim C3. -/
def c3Response : SinkConsumerResponse :=
  { ID := "sink-1", Name := "s", Status := "active", Database := "db",
    Tables := [{ Name := "public.users" }],
    Destination := { type := "webhook", HTTPEndpoint := "https://e" },
    Filter := "none", BatchSize := 1,
    LoadSheddingPolicy := "pause_on_full", TimestampFormat := "iso8601" }

/-- Prior persisted state holding a real filter value, used for claim C3. -/
def c3Prior : SinkConsumerResourceModel :=
  { ID := some "sink-1", Filter := some "my_filter", Destination := some {} }

/-- Claim C3 is false as stated: when the snapshot returns the sentinel
`"none"` for `filter`, the merged filter is NOT always Absent — a non-null
prior persisted filter is kept verbatim (the Go lines 1059-1063 null the
field only when the model value was already null or unknown). -/
theorem C3_counterexample :
    c3Response.Filter = "none" ∧
    (mapResponseToModel c3Response c3Prior).Filter = some "my_filter" ∧
    ¬ (mapResponseToModel c3Response c3Prior).Filter = none := by
  refine ⟨rfl, ?_, ?_⟩ <;> decide

/-- Claim C3 as amended: when the remote snapshot returns the reserved
sentinel `"none"` for the filter field, the merged filter equals the prior
persisted filter verbatim — in particular it is Absent whenever the prior
filter was Absent, and the sentinel itself is never taken from the
snapshot. -/
theorem C3_amended_filter_sentinel (response : SinkConsumerResponse)
    (m : SinkConsumerResourceModel) (h : response.Filter = "none") :
    (mapResponseToModel response m).Filter = m.Filter := by
  simp [mapResponseToModel, h]

/-- Witness for C3: the amended theorem applied at the concrete sentinel
response and prior state of the counterexample. -/
theorem C3_witness :
    (mapResponseToModel c3Response c3Prior).Filter = c3Prior.Filter :=
  C3_amended_filter_sentinel c3Response c3Prior rfl

/-- Desired configuration whose kafka-kind destination also carries an SQS
`queue_url`, used to refute claim C4. -/
def c4Plan : SinkConsumerResourceModel :=
  { Name := some "k", Database := some "db",
    Tables := [{ name := "public.users" }],
    Destination := some
      { type := some "kafka", hosts := some "b:9092", topic := some "t",
        queue_url := some "https://sqs.example.com/q" } }

/-- A successful create/update response for the C4 plan. -/
def c4Response : SinkConsumerResponse :=
  { ID := "sink-9", Name := "k", Status := "active", Database := "db",
    Tables := [{ Name := "public.users" }],
    Destination := { type := "kafka", Hosts := "b:9092", Topic := "t" },
    BatchSize := 1, LoadSheddingPolicy := "pause_on_full",
    TimestampFormat := "iso8601" }

/-- Claim C4 is false as stated: a kafka-kind destination carrying a
non-absent SQS `queue_url` is NOT rejected — no `InvalidDestinationField`
validation exists.  Both request builders copy the cross-kind field into the
outbound request, and `Create`/`Update` succeed whenever the API call does. -/
theorem C4_counterexample :
    (buildCreateRequest c4Plan).Destination.QueueURL = "https://sqs.example.com/q" ∧
    (buildUpdateRequest c4Plan).Destination.QueueURL = "https://sqs.example.com/q" ∧
    exceptIsOk (sinkConsumerCreate c4Plan (.ok c4Response)) = true ∧
    exceptIsOk (sinkConsumerUpdate c4Plan c4Plan (.ok c4Response)) = true := by
  refine ⟨rfl, rfl, rfl, rfl⟩

/-- Claim C4 as amended: `Create` and `Update` perform no cross-kind
destination validation at all — for every desired configuration (including
one whose destination carries fields of other kinds) they build the request
and, given a successful API call, return success; every non-absent
destination field, `queue_url` included, is copied into the outbound request
regardless of the declared kind. -/
theorem C4_amended_no_destination_validation (plan : SinkConsumerResourceModel)
    (response : SinkConsumerResponse) (d : DestinationAttrs) :
    exceptIsOk (sinkConsumerCreate plan (.ok response)) = true ∧
    exceptIsOk (sinkConsumerUpdate plan plan (.ok response)) = true ∧
    (buildDestinationRequest d).QueueURL = d.queue_url.getD "" := by
  refine ⟨rfl, rfl, rfl⟩

/-- Claim C10: on a successful `Create`, the persisted destination equals
the planned destination exactly (the response's destination is discarded),
and `source`, `transform`, `enrichment` are forced back to Absent whenever
they were Absent in the plan, regardless of the response. -/
theorem C10_create_restores_plan (plan : SinkConsumerResourceModel)
    (response : SinkConsumerResponse) :
    ∃ m, sinkConsumerCreate plan (.ok response) = .ok m ∧
      m.Destination = plan.Destination ∧
      (plan.Source = none → m.Source = none) ∧
      (plan.Transform = none → m.Transform = none) ∧
      (plan.Enrichment = none → m.Enrichment = none) := by
  refine ⟨postCreateRestore plan (mapResponseToModel response plan), rfl, rfl, ?_, ?_, ?_⟩ <;>
    intro h <;>
    simp [postCreateRestore, restoreSource, restoreTransform, restoreEnrichment, h]

/-- Witness for C10 at a concrete plan with Absent source, transform and
enrichment, and a response that returns values for all three. -/
def c10Plan : SinkConsumerResourceModel :=
  { Name := some "w", Database := some "db",
    Tables := [{ name := "public.users" }],
    Destination := some
      { type := some "webhook", http_endpoint := some "https://example.com" } }

/-- Response for the C10 witness: the API returns a destination, a source, a
transform and an enrichment that the restore step must discard. -/
def c10Response : SinkConsumerResponse :=
  { ID := "sink-3", Name := "w", Status := "active", Database := "db",
    Source := some { IncludeSchemas := ["public"] },
    Tables := [{ Name := "public.users" }],
    Destination := { type := "webhook", HTTPEndpoint := "https://other.example.com" },
    Transform := "my-transform", Enrichment := "my-enrichment",
    BatchSize := 1, LoadSheddingPolicy := "pause_on_full",
    TimestampFormat := "iso8601" }

/-- Witness for C10: the theorem applied at the concrete plan/response pair,
with the implications discharged on Absent plan fields. -/
theorem C10_witness :
    ∃ m, sinkConsumerCreate c10Plan (.ok c10Response) = .ok m ∧
      m.Destination = c10Plan.Destination ∧
      m.Source = none ∧ m.Transform = none ∧ m.Enrichment = none := by
  obtain ⟨m, hm, hdest, hsrc, htr, hen⟩ :=
    C10_create_restores_plan c10Plan c10Response
  exact ⟨m, hm, hdest, hsrc rfl, htr rfl, hen rfl⟩

/-- Persisted state used in the C6 counterexample and witnesses. -/
def c6State : SinkConsumerResourceModel :=
  { ID := some "sink-1", Destination := some {} }

set_option maxRecDepth 4096 in
/-- Claim C6 is false as stated in its second half: a remote failure that is
NOT a not-found (HTTP 500 here) but whose error text happens to contain
`"404"` is absorbed by `Read` into removal instead of being surfaced,
because the classification is a substring test on the message. -/
theorem C6_counterexample :
    sinkConsumerRead (.errStatus 500 "see https://docs.example/404-errors") c6State =
      .removed := by
  decide

/-- Claim C6 as amended: a not-found (HTTP 404) on `Read` removes the
resource with no error and on `Delete` is silent success; any other remote
error is surfaced on `Delete`, and is surfaced on `Read` provided its
wrapped message is not classified as not-found by the substring test (when
it is, `Read` absorbs it into removal as well — see C9). -/
theorem C6_amended_not_found_semantics (state : SinkConsumerResourceModel)
    (id body : String) (code : Nat) :
    (sinkConsumerRead (.errStatus 404 body) state = .removed) ∧
    (deleteSinkConsumer id (.errStatus 404 body) = .ok ()) ∧
    (code ≠ 404 →
      IsNotFoundError
        (some ("failed to get sink consumer: " ++ apiErrorMsg code body)) = false →
      sinkConsumerRead (.errStatus code body) state =
        .failed ("Could not read sink consumer ID " ++ state.ID.getD "" ++ ": " ++
          ("failed to get sink consumer: " ++ apiErrorMsg code body))) ∧
    (code ≠ 404 →
      deleteSinkConsumer id (.errStatus code body) =
        .error ("failed to delete sink consumer: " ++ apiErrorMsg code body)) := by
  refine ⟨?_, ?_, ?_, ?_⟩
  · simp [sinkConsumerRead, getSinkConsumer, isNotFoundError_getMsg]
  · simp [deleteSinkConsumer]
  · intro hcode hnf
    simp [sinkConsumerRead, getSinkConsumer, hcode, hnf]
  · intro hcode
    simp [deleteSinkConsumer, hcode]

/-- Witness for C6: the amended theorem at a concrete state, id, body and a
non-404 status whose message is not classified as not-found. -/
theorem C6_witness :
    (sinkConsumerRead (.errStatus 404 "gone") c6State = .removed) ∧
    (deleteSinkConsumer "sink-1" (.errStatus 404 "gone") = .ok ()) ∧
    (sinkConsumerRead (.errStatus 500 "boom") c6State =
      .failed ("Could not read sink consumer ID " ++ "sink-1" ++ ": " ++
        ("failed to get sink consumer: " ++ apiErrorMsg 500 "boom"))) ∧
    (deleteSinkConsumer "sink-1" (.errStatus 500 "boom") =
      .error ("failed to delete sink consumer: " ++ apiErrorMsg 500 "boom")) := by
  obtain ⟨h1, h2, h3, h4⟩ :=
    C6_amended_not_found_semantics c6State "sink-1" "gone" 500
  obtain ⟨h1b, h2b, h3b, h4b⟩ :=
    C6_amended_not_found_semantics c6State "sink-1" "boom" 500
  exact ⟨h1, h2, h3b (by decide) (by decide), h4b (by decide)⟩

/-- Claim C9: the not-found classification is exactly the substring test —
`IsNotFoundError` is false on nil errors, true on a message precisely when
it contains `"not found"` or `"404"`; consequently `Read` absorbs into
`removed` (dropping the resource without error) every remote failure whose
body text contains one of those substrings, even on a non-404 status. -/
theorem C9_not_found_classification (e body : String) (code : Nat)
    (state : SinkConsumerResourceModel) :
    (IsNotFoundError none = false) ∧
    (IsNotFoundError (some e) = true ↔
      ("not found".data <:+: e.data ∨ "404".data <:+: e.data)) ∧
    (("not found".data <:+: body.data ∨ "404".data <:+: body.data) →
      sinkConsumerRead (.errStatus code body) state = .removed) := by
  refine ⟨rfl, ?_, ?_⟩
  · simp [IsNotFoundError, strContains, Bool.or_eq_true, decide_eq_true_eq]
  · intro h
    by_cases hcode : code = 404
    · subst hcode
      simp [sinkConsumerRead, getSinkConsumer, isNotFoundError_getMsg]
    · simp [sinkConsumerRead, getSinkConsumer, hcode,
        isNotFoundError_wrapped code body h]

/-- Witness for C9: concrete instances — a 500-status body containing
`"404"` is absorbed into removal by `Read`. -/
theorem C9_witness :
    (IsNotFoundError none = false) ∧
    (IsNotFoundError (some "resource not found") = true) ∧
    (sinkConsumerRead (.errStatus 500 "404 page") c6State = .removed) := by
  obtain ⟨h1, h2, h3⟩ :=
    C9_not_found_classification "resource not found" "404 page" 500 c6State
  exact ⟨h1, h2.mpr (Or.inl (by decide)), h3 (Or.inr (by decide))⟩

/-- The character-list form of a compound identifier `p ++ "/" ++ c`. -/
lemma compound_id_data (p c : String) :
    (p ++ "/" ++ c).data = p.data ++ '/' :: c.data := by
  rw [String.data_append, String.data_append]
  simp

/-- Decoding a well-formed compound identifier succeeds and recovers both
components exactly; the first component must be separator-free (the split is
on the first separator). -/
lemma backfillImportState_roundtrip (p c : String) (hp : p ≠ "") (hc : c ≠ "")
    (hpsep : ('/' : Char) ∉ p.data) :
    backfillImportState (p ++ "/" ++ c) = .ok (p, c) := by
  simp [backfillImportState, compound_id_data, splitN2_append_sep '/' p.data c.data hpsep,
    stringMk_data, hp, hc]

/-- Decoding a separator-free string fails with the format diagnostic. -/
lemma backfillImportState_no_sep (raw : String) (h : ('/' : Char) ∉ raw.data) :
    backfillImportState raw = .error (importFormatError raw) := by
  simp [backfillImportState, splitN2_no_sep '/' raw.data h, stringMk_data]

/-- Claim C7: the identifier codec round-trips — for every non-empty parent
reference and child ID not containing the separator, decoding
`parent ++ "/" ++ child` recovers exactly `(parent, child)`, and decoding a
string with no separator (such as `"bad-id-no-separator"`) yields the
validation diagnostic naming the expected format (and `ImportState` performs
no client call at all). -/
theorem C7_import_roundtrip (p c : String) (hp : p ≠ "") (hc : c ≠ "")
    (hpsep : ('/' : Char) ∉ p.data) (hcsep : ('/' : Char) ∉ c.data) :
    backfillImportState (p ++ "/" ++ c) = .ok (p, c) ∧
    backfillImportState "bad-id-no-separator" =
      .error (importFormatError "bad-id-no-separator") := by
  refine ⟨backfillImportState_roundtrip p c hp hc hpsep, ?_⟩
  rfl

/-- Witness for C7 at the spec's own example, parent `"orders-sink"` and
child `"bf-001"`. -/
theorem C7_witness :
    backfillImportState ("orders-sink" ++ "/" ++ "bf-001") = .ok ("orders-sink", "bf-001") ∧
    backfillImportState "bad-id-no-separator" =
      .error (importFormatError "bad-id-no-separator") :=
  C7_import_roundtrip "orders-sink" "bf-001" (by decide) (by decide) (by decide) (by decide)

/-- Claim C8 is false as stated: a raw identifier with more than one
separator does NOT yield a validation error — `strings.SplitN(raw, "/", 2)`
splits on the first separator only, so `"a/b/c"` decodes successfully with
everything after the first separator, `"b/c"`, as the child ID. -/
theorem C8_counterexample :
    backfillImportState "a/b/c" = .ok ("a", "b/c") := by
  rfl

/-- Claim C8 as amended: decoding succeeds exactly when the raw string
contains at least one separator with non-empty text on both sides of the
first one; the child component is everything after the first separator,
verbatim, and may itself contain separators.  A string with zero separators,
or with an empty segment on either side of the first separator, yields the
validation error naming the expected format. -/
theorem C8_amended_split_semantics :
    (∀ p c : String, p ≠ "" → c ≠ "" → ('/' : Char) ∉ p.data →
      backfillImportState (p ++ "/" ++ c) = .ok (p, c)) ∧
    (∀ raw : String, ('/' : Char) ∉ raw.data →
      backfillImportState raw = .error (importFormatError raw)) ∧
    (∀ c : String, backfillImportState ("/" ++ c) = .error (importFormatError ("/" ++ c))) ∧
    (∀ p : String, ('/' : Char) ∉ p.data →
      backfillImportState (p ++ "/") = .error (importFormatError (p ++ "/"))) := by
  refine ⟨fun p c hp hc hpsep => backfillImportState_roundtrip p c hp hc hpsep,
    fun raw h => backfillImportState_no_sep raw h, ?_, ?_⟩
  · intro c
    have hdata : ("/" ++ c).data = '/' :: c.data := by
      rw [String.data_append]
      simp
    simp [backfillImportState, hdata, splitN2, stringMk_data]
  · intro p hp
    have hdata : (p ++ "/").data = p.data ++ '/' :: ([] : List Char) := by
      rw [String.data_append]
    simp [backfillImportState, hdata, splitN2_append_sep '/' p.data [] hp, stringMk_data]

/-- Witness for C8: the amended theorem instantiated at `"a"` / `"b/c"`
(child containing a separator), a separator-free string, and the two
empty-segment shapes. -/
theorem C8_witness :
    backfillImportState ("a" ++ "/" ++ "b/c") = .ok ("a", "b/c") ∧
    backfillImportState "plain" = .error (importFormatError "plain") ∧
    backfillImportState ("/" ++ "tail") = .error (importFormatError ("/" ++ "tail")) ∧
    backfillImportState ("head" ++ "/") = .error (importFormatError ("head" ++ "/")) := by
  obtain ⟨h1, h2, h3, h4⟩ := C8_amended_split_semantics
  exact ⟨h1 "a" "b/c" (by decide) (by decide) (by decide),
    h2 "plain" (by decide), h3 "tail", h4 "head" (by decide)⟩
